import Mathlib

/-!
Verification of the Synergy Wholesale MCP adapter core
(`src/shared/base_server.py`), shallowly embedded in Lean.

Python dictionaries are modelled as association lists (`PyDict`) with
Python insertion-order semantics: building a dict literal
`{k1: v1, ..., **d}` inserts the pairs left to right, where inserting an
existing key updates its value in place and a fresh key is appended.
Lookup (`dget`) returns the value at a key, which for a duplicate-free
list is the unique binding.  Python dict equality (`==`) ignores
insertion order, so "the same mapping" is stated either as key-wise
equality of `dget` or as a permutation of duplicate-free lists.
-/

namespace SynergyWholesale

/-- Values stored in a Python dict, as needed by the adapter core:
strings and integers. -/
inductive Val
  | vstr (s : String)
  | vint (n : Int)
  deriving DecidableEq

/-- A Python dict: an association list in insertion order. -/
abbrev PyDict := List (String × Val)

/-- Lookup of a key: value of its first (for duplicate-free dicts,
unique) binding. -/
def dget : PyDict → String → Option Val
  | [], _ => none
  | (k1, v1) :: t, k => if k1 = k then some v1 else dget t k

/-- Python dict insertion: update the first binding of the key in place,
or append a fresh binding at the end. -/
def dinsert : PyDict → String → Val → PyDict
  | [], k, v => [(k, v)]
  | (k1, v1) :: t, k, v => if k1 = k then (k1, v) :: t else (k1, v1) :: dinsert t k v

/-- `dmerge d1 d2` is the Python dict literal `{**d1, **d2}` (also
`{k1: a, k2: b, **d2}` with `d1 = [(k1, a), (k2, b)]`): the pairs of
`d2` inserted into `d1` left to right. -/
def dmerge (d1 d2 : PyDict) : PyDict :=
  d2.foldl (fun acc kv => dinsert acc kv.1 kv.2) d1

/-- The keys of a dict, in order. -/
def keys (d : PyDict) : List String := d.map Prod.fst

instance {ε α : Type} [DecidableEq ε] [DecidableEq α] : DecidableEq (Except ε α) := fun a b =>
  match a, b with
  | .ok x, .ok y =>
    if h : x = y then .isTrue (congrArg Except.ok h)
    else .isFalse (fun hc => h (Except.ok.inj hc))
  | .error x, .error y =>
    if h : x = y then .isTrue (congrArg Except.error h)
    else .isFalse (fun hc => h (Except.error.inj hc))
  | .ok _, .error _ => .isFalse (fun hc => Except.noConfusion hc)
  | .error _, .ok _ => .isFalse (fun hc => Except.noConfusion hc)

/- ## Response normalization (`handle_soap_response`) -/

/-- A SOAP response after zeep serialization, as far as the adapter
inspects it: either Python `None` or a plain dict.  (For an
already-plain mapping, `zeep.helpers.serialize_object` is the
identity.) -/
inductive Resp
  | rnone
  | rdict (d : PyDict)
  deriving DecidableEq

/-- `charsStartWith s p` decides whether the character list `p` is an
initial segment of the character list `s`. -/
def charsStartWith : List Char → List Char → Bool
  | _, [] => true
  | [], _ :: _ => false
  | c :: cs, p :: ps => p == c && charsStartWith cs ps

/-- Python `str.startswith`, computed on the underlying character lists
so that closed instances reduce inside the kernel (the core
`String.startsWith` is defined by well-founded recursion and does not). -/
def strStartsWith (s p : String) : Bool := charsStartWith s.data p.data

/-- Default message used when an `ERR_` status has no `errorMessage`. -/
def unknownErrMsg : String := "Unknown error occurred"

/-- The status-convention re-tag of `handle_soap_response`
(src/shared/base_server.py lines 126-136): if the serialized mapping has
a string `status` field starting with `ERR_`, return
`{error: errorMessage-or-default, status: status, **result}`; otherwise
return the mapping unchanged. -/
def retagStatus (result : PyDict) : PyDict :=
  match dget result "status" with
  | some (Val.vstr s) =>
    if strStartsWith s "ERR_" then
      let errorMsg := (dget result "errorMessage").getD (Val.vstr unknownErrMsg)
      dmerge [("error", errorMsg), ("status", Val.vstr s)] result
    else result
  | _ => result

/-- `handle_soap_response` (src/shared/base_server.py lines 100-136) on
the responses the claims concern: `None` yields the synthetic error
mapping; a plain dict serializes to itself and then passes through the
status-convention re-tag. -/
def handle_soap_response : Resp → PyDict
  | .rnone => [("error", Val.vstr "No response received from API")]
  | .rdict d => retagStatus d

/- ## Credential resolution (`validate_credentials`, `add_auth`) -/

/-- Python truthiness of an optional string: `None` and `""` are falsy. -/
def truthy : Option String → Bool
  | none => false
  | some s => s != ""

/-- Python `x or y` on optional strings: `y` when `x` is falsy
(`None` or `""`), otherwise `x`. -/
def pyOr (x y : Option String) : Option String :=
  match x with
  | some s => if s = "" then y else some s
  | none => y

/-- The missing-credentials message raised by `validate_credentials`. -/
def missingCredsMsg : String :=
  "Missing required credentials. Please provide reseller_id and api_key parameters, or set SYNERGY_RESELLER_ID and SYNERGY_API_KEY environment variables."

/-- `validate_credentials` (src/shared/base_server.py lines 76-89).
The two environment variables `SYNERGY_RESELLER_ID` and
`SYNERGY_API_KEY` are passed explicitly as `envResellerId` /
`envApiKey` (`none` when unset).  A raised `ValueError` is modelled as
`Except.error` with its message. -/
def validate_credentials (reseller_id api_key envResellerId envApiKey : Option String) :
    Except String (String × String) :=
  let finalResellerId := pyOr reseller_id envResellerId
  let finalApiKey := pyOr api_key envApiKey
  if truthy finalResellerId && truthy finalApiKey then
    .ok (finalResellerId.getD "", finalApiKey.getD "")
  else
    .error missingCredsMsg

/-- `add_auth` (src/shared/base_server.py lines 91-98): resolve
credentials, then build `{"resellerID": id, "apiKey": key, **params}`. -/
def add_auth (params : PyDict) (reseller_id api_key envResellerId envApiKey : Option String) :
    Except String PyDict :=
  match validate_credentials reseller_id api_key envResellerId envApiKey with
  | .error m => .error m
  | .ok (finalResellerId, finalApiKey) =>
    .ok (dmerge [("resellerID", Val.vstr finalResellerId), ("apiKey", Val.vstr finalApiKey)]
          params)

/- ## The orchestrator (`safe_soap_call`) and its effects

Network effects are tracked in an explicit `World`: how many times the
WSDL descriptor was fetched (`Client(WSDL_URL)` inside
`get_soap_client`) and how many remote operation invocations were
performed (`method(request_obj)` or `method(**auth_params)`).  The
outcomes of descriptor fetch, typed-request construction and each
remote invocation are supplied by oracle parameters, since they depend
on the network. -/

/-- Python exceptions distinguished by `safe_soap_call`'s handlers.
`zeep.exceptions.TransportError` and `zeep.exceptions.Fault` have their
own `except` clauses; everything else (including the `ValueError`s
raised by `get_soap_client` and `validate_credentials`) is caught by
the final `except Exception`. -/
inductive PyExn
  | transportError (msg : String)
  | fault (msg : String) (code detail : Option String)
  | valueError (msg : String)
  | otherExn (ty msg : String)
  deriving DecidableEq

/-- Python `type(e).__name__`. -/
def PyExn.typeName : PyExn → String
  | .transportError _ => "TransportError"
  | .fault _ _ _ => "Fault"
  | .valueError _ => "ValueError"
  | .otherExn ty _ => ty

/-- Python `str(e)` (for `Fault`, also its `message` attribute). -/
def PyExn.msg : PyExn → String
  | .transportError m => m
  | .fault m _ _ => m
  | .valueError m => m
  | .otherExn _ m => m

/-- Outcome of one remote operation invocation: a response, or a raised
exception. -/
inductive CallOutcome
  | ok (r : Resp)
  | raise (e : PyExn)
  deriving DecidableEq

/-- Whether the outcome is a raised exception. -/
def CallOutcome.isRaise : CallOutcome → Bool
  | .ok _ => false
  | .raise _ => true

/-- Observable network state of the adapter process: whether
`self._soap_client` is initialized, how many descriptor fetches
(`Client(WSDL_URL)`) and how many remote operation invocations have
happened. -/
structure World where
  clientInit : Bool
  fetchCount : Nat
  callCount : Nat
  deriving DecidableEq

/-- A fresh process: no client, no network activity. -/
def freshWorld : World := ⟨false, 0, 0⟩

/-- `get_soap_client` (src/shared/base_server.py lines 44-74): when the
client is already initialized, return it without network activity;
otherwise fetch the descriptor (one fetch, succeeding iff `fetchOk`)
and either install the client or raise
`ValueError("Could not connect ...")`. -/
def get_soap_client (w : World) (fetchOk : Bool) : World × Except PyExn Unit :=
  if w.clientInit then (w, .ok ())
  else if fetchOk then
    ({ clientInit := true, fetchCount := w.fetchCount + 1, callCount := w.callCount }, .ok ())
  else
    ({ w with fetchCount := w.fetchCount + 1 },
     .error (.valueError "Could not connect to Synergy Wholesale API"))

/-- One remote operation invocation: the merged parameters are sent,
the call counter advances, and the oracle `net` determines the outcome
of the `n`-th invocation on those parameters. -/
def doInvoke (w : World) (net : Nat → PyDict → CallOutcome) (sentParams : PyDict) :
    World × CallOutcome :=
  ({ w with callCount := w.callCount + 1 }, net w.callCount sentParams)

/-- The inner `try` of `safe_soap_call` (src/shared/base_server.py
lines 153-169): if typed-request lookup and construction succeed
(`typedOk`), invoke the operation with the typed payload; any exception
raised inside this `try` — including one raised by the remote
invocation itself — triggers the fallback direct call
`method(**auth_params)`, whose own exception propagates outward. When
lookup or construction fails, only the direct call is performed. -/
def attemptCall (w : World) (authParams : PyDict) (typedOk : Bool)
    (net : Nat → PyDict → CallOutcome) : World × Except PyExn Resp :=
  if typedOk then
    match doInvoke w net authParams with
    | (w1, .ok r) => (w1, .ok r)
    | (w1, .raise _) =>
      match doInvoke w1 net authParams with
      | (w2, .ok r) => (w2, .ok r)
      | (w2, .raise e) => (w2, .error e)
  else
    match doInvoke w net authParams with
    | (w1, .ok r) => (w1, .ok r)
    | (w1, .raise e) => (w1, .error e)

/-- The `except TransportError` envelope (lines 173-179). -/
def transportEnvelope (methodName m : String) : PyDict :=
  [("error", Val.vstr ("Transport error: " ++ m)),
   ("method", Val.vstr methodName),
   ("suggestion", Val.vstr "Check network connectivity and API endpoint")]

/-- The `except Fault` envelope (lines 181-191): `fault_code` and
`fault_detail` are added when the fault carries them. -/
def faultEnvelope (methodName m : String) (code detail : Option String) : PyDict :=
  let base : PyDict :=
    [("error", Val.vstr ("SOAP Fault: " ++ m)), ("method", Val.vstr methodName)]
  let withCode := match code with
    | some c => dinsert base "fault_code" (Val.vstr c)
    | none => base
  match detail with
  | some d => dinsert withCode "fault_detail" (Val.vstr d)
  | none => withCode

/-- The final `except Exception` envelope (lines 193-195). -/
def genericEnvelope (methodName : String) (e : PyExn) : PyDict :=
  [("error", Val.vstr e.msg), ("method", Val.vstr methodName),
   ("error_type", Val.vstr e.typeName)]

/-- The three `except` clauses of `safe_soap_call`, in source order:
`TransportError`, then `Fault`, then `Exception`. -/
def classify (methodName : String) : PyExn → PyDict
  | .transportError m => transportEnvelope methodName m
  | .fault m code detail => faultEnvelope methodName m code detail
  | .valueError m => genericEnvelope methodName (.valueError m)
  | .otherExn ty m => genericEnvelope methodName (.otherExn ty m)

/-- `safe_soap_call` (src/shared/base_server.py lines 138-195), the
spec's `invoke`: get the client (fetching the descriptor on first use),
resolve credentials and merge them into the parameters, perform the
typed-or-fallback invocation, normalize the response; every exception
raised along the way is classified by the three `except` clauses into
an error envelope, so the function always returns a mapping. -/
def safe_soap_call (w : World) (methodName : String) (params : PyDict)
    (reseller_id api_key envResellerId envApiKey : Option String)
    (fetchOk typedOk : Bool) (net : Nat → PyDict → CallOutcome) : World × PyDict :=
  let inner : World × Except PyExn PyDict :=
    match get_soap_client w fetchOk with
    | (w1, .error e) => (w1, .error e)
    | (w1, .ok _) =>
      match add_auth params reseller_id api_key envResellerId envApiKey with
      | .error m => (w1, .error (.valueError m))
      | .ok authParams =>
        match attemptCall w1 authParams typedOk net with
        | (w2, .ok resp) => (w2, .ok (handle_soap_response resp))
        | (w2, .error e) => (w2, .error e)
  match inner with
  | (w2, .ok d) => (w2, d)
  | (w2, .error e) => (w2, classify methodName e)

/- ## Interleaved first use of `get_soap_client`

`get_soap_client` guards construction with a plain
`if self._soap_client is None` and no lock.  To examine racing first
callers, its body is split at thread granularity into two atomic
steps: the null check (which decides whether this thread will
construct) and the fetch-and-assign.  A scheduler then interleaves the
steps of several threads over the shared state. -/

/-- Program counter of one thread running `get_soap_client`:
not yet at the null check, past a null check that saw `None` (about to
fetch), or finished. -/
inductive TPos
  | start
  | fetching
  | finished
  deriving DecidableEq

/-- Shared state seen by racing callers: whether `self._soap_client`
is set, and how many descriptor fetches have happened. -/
structure CState where
  clientInit : Bool
  fetchCount : Nat
  deriving DecidableEq

/-- One atomic step of a thread inside `get_soap_client`: the null
check reads the shared field; the fetch increments the fetch counter
and installs the client. -/
def threadStep (s : CState) : TPos → CState × TPos
  | .start => if s.clientInit then (s, .finished) else (s, .fetching)
  | .fetching => ({ clientInit := true, fetchCount := s.fetchCount + 1 }, .finished)
  | .finished => (s, .finished)

/-- Run a schedule (a list of thread indices) over the shared state and
the per-thread positions; an index without a thread is skipped. -/
def runSched : List Nat → CState → List TPos → CState × List TPos
  | [], s, ts => (s, ts)
  | i :: rest, s, ts =>
    match ts.get? i with
    | none => runSched rest s ts
    | some t =>
      let p := threadStep s t
      runSched rest p.1 (ts.set i p.2)

/-- Sequentially repeated calls of `get_soap_client` (each call's
returned world feeds the next call). -/
def iterateClient : Nat → World → World
  | 0, w => w
  | n + 1, w => iterateClient n (get_soap_client w true).1

/- ## Dictionary lemmas -/

@[simp]
theorem dget_nil (k : String) : dget [] k = none := rfl

theorem dget_cons (k1 : String) (v1 : Val) (t : PyDict) (k : String) :
    dget ((k1, v1) :: t) k = if k1 = k then some v1 else dget t k := rfl

@[simp]
theorem dget_dinsert_self (d : PyDict) (k : String) (v : Val) :
    dget (dinsert d k v) k = some v := by
  induction d with
  | nil => simp [dinsert, dget]
  | cons hd t ih =>
    obtain ⟨k1, v1⟩ := hd
    by_cases h : k1 = k
    · simp [dinsert, dget, h]
    · simp [dinsert, dget, h, ih]

theorem dget_dinsert_ne (d : PyDict) (k k2 : String) (v : Val) (h : k2 ≠ k) :
    dget (dinsert d k v) k2 = dget d k2 := by
  have hks : ¬k = k2 := fun hc => h hc.symm
  induction d with
  | nil => simp [dinsert, dget, hks]
  | cons hd t ih =>
    obtain ⟨k1, v1⟩ := hd
    by_cases h1 : k1 = k
    · subst h1
      simp [dinsert, dget, hks]
    · simp [dinsert, dget, h1, ih]

theorem dget_eq_none_iff (d : PyDict) (k : String) :
    dget d k = none ↔ k ∉ keys d := by
  induction d with
  | nil => simp [dget, keys]
  | cons hd t ih =>
    obtain ⟨k1, v1⟩ := hd
    by_cases h : k1 = k
    · simp [dget, keys, h]
    · have hks : ¬k = k1 := fun hc => h hc.symm
      simp [dget, keys, h, hks, ih]

theorem keys_dinsert (d : PyDict) (k : String) (v : Val) :
    keys (dinsert d k v) = if k ∈ keys d then keys d else keys d ++ [k] := by
  induction d with
  | nil => simp [dinsert, keys]
  | cons hd t ih =>
    obtain ⟨k1, v1⟩ := hd
    by_cases h : k1 = k
    · simp [dinsert, keys, h]
    · have hne : ¬k = k1 := fun hc => h hc.symm
      have hmem : (k ∈ keys ((k1, v1) :: t)) ↔ (k ∈ keys t) := by
        simp [keys, hne]
      simp only [dinsert, if_neg h, keys, List.map_cons] at *
      rw [ih]
      by_cases hm : k ∈ List.map Prod.fst t
      · rw [if_pos hm, if_pos (hmem.mpr hm)]
      · rw [if_neg hm, if_neg (fun hc => hm (hmem.mp hc))]
        simp

theorem nodup_keys_dinsert (d : PyDict) (k : String) (v : Val) (h : (keys d).Nodup) :
    (keys (dinsert d k v)).Nodup := by
  rw [keys_dinsert]
  by_cases hm : k ∈ keys d
  · simpa [hm] using h
  · simp only [hm, if_false, List.nodup_append]
    exact ⟨h, List.nodup_singleton k, by simpa using fun hc => hm hc⟩

theorem dmerge_nil (d1 : PyDict) : dmerge d1 [] = d1 := rfl

theorem dmerge_cons (d1 : PyDict) (kv : String × Val) (t : PyDict) :
    dmerge d1 (kv :: t) = dmerge (dinsert d1 kv.1 kv.2) t := rfl

theorem nodup_keys_dmerge (d1 d2 : PyDict) (h : (keys d1).Nodup) :
    (keys (dmerge d1 d2)).Nodup := by
  induction d2 generalizing d1 with
  | nil => simpa [dmerge_nil] using h
  | cons kv t ih =>
    rw [dmerge_cons]
    exact ih _ (nodup_keys_dinsert _ _ _ h)

theorem dget_dmerge_of_none (d1 d2 : PyDict) (k : String) (h : dget d2 k = none) :
    dget (dmerge d1 d2) k = dget d1 k := by
  induction d2 generalizing d1 with
  | nil => rw [dmerge_nil]
  | cons kv t ih =>
    obtain ⟨k1, v1⟩ := kv
    rw [dget_cons] at h
    by_cases h1 : k1 = k
    · simp [h1] at h
    · rw [if_neg h1] at h
      rw [dmerge_cons]
      rw [ih _ h]
      exact dget_dinsert_ne _ _ _ _ (fun hc => h1 hc.symm)

theorem dget_dmerge_of_some (d1 d2 : PyDict) (k : String) (v : Val)
    (hnd : (keys d2).Nodup) (h : dget d2 k = some v) :
    dget (dmerge d1 d2) k = some v := by
  induction d2 generalizing d1 with
  | nil => simp [dget] at h
  | cons kv t ih =>
    obtain ⟨k1, v1⟩ := kv
    rw [dget_cons] at h
    simp only [keys, List.map_cons, List.nodup_cons] at hnd
    by_cases h1 : k1 = k
    · subst h1
      rw [if_pos rfl] at h
      injection h with hv
      subst hv
      rw [dmerge_cons]
      have hkt : dget t k1 = none := (dget_eq_none_iff t k1).mpr hnd.1
      rw [dget_dmerge_of_none _ _ _ hkt]
      exact dget_dinsert_self d1 k1 v1
    · rw [if_neg h1] at h
      rw [dmerge_cons]
      exact ih _ hnd.2 h

/- ## Credential lemmas -/

theorem truthy_pyOr (x y : Option String) : truthy (pyOr x y) = (truthy x || truthy y) := by
  cases x with
  | none => simp [pyOr, truthy]
  | some s =>
    by_cases h : s = ""
    · simp [pyOr, truthy, h]
    · simp [pyOr, truthy, h]

theorem validate_error_iff (rid key envR envK : Option String) :
    validate_credentials rid key envR envK = .error missingCredsMsg ↔
      (truthy rid = false ∧ truthy envR = false) ∨
      (truthy key = false ∧ truthy envK = false) := by
  have hpr := truthy_pyOr rid envR
  have hpk := truthy_pyOr key envK
  unfold validate_credentials
  by_cases h : (truthy (pyOr rid envR) && truthy (pyOr key envK)) = true
  · rw [if_pos h]
    rw [Bool.and_eq_true] at h
    constructor
    · intro hc
      exact Except.noConfusion hc
    · intro hc
      rcases hc with ⟨h1, h2⟩ | ⟨h1, h2⟩
      · rw [hpr, h1, h2] at h
        simp at h
      · rw [hpk, h1, h2] at h
        simp at h
  · rw [if_neg h]
    constructor
    · intro _
      rw [Bool.and_eq_true, not_and_or] at h
      rcases h with h1 | h1
      · rw [hpr] at h1
        rw [Bool.not_eq_true, Bool.or_eq_false_iff] at h1
        exact Or.inl h1
      · rw [hpk] at h1
        rw [Bool.not_eq_true, Bool.or_eq_false_iff] at h1
        exact Or.inr h1
    · intro _
      rfl

/- ## Claim theorems: credential resolution -/

/-- Claim C8: explicit credentials take field-by-field precedence over
environment defaults — with explicit id `a` and secret `b` both
non-empty, the result is `(a, b)` even when both environment defaults
are set; a partially explicit pair merges with the default for the
missing field; and resolution fails (raising the missing-credentials
`ValueError`) exactly when some field is truthy in neither source. -/
theorem c8_credential_precedence (a b x y : String) (ha : a ≠ "") (hb : b ≠ "") (hy : y ≠ "") :
    validate_credentials (some a) (some b) (some x) (some y) = .ok (a, b) ∧
    validate_credentials (some a) none (some x) (some y) = .ok (a, y) ∧
    (∀ rid key envR envK : Option String,
      validate_credentials rid key envR envK = .error missingCredsMsg ↔
        (truthy rid = false ∧ truthy envR = false) ∨
        (truthy key = false ∧ truthy envK = false)) := by
  refine ⟨?_, ?_, validate_error_iff⟩
  · simp [validate_credentials, pyOr, truthy, ha, hb]
  · simp [validate_credentials, pyOr, truthy, ha, hy]

/-- Witness for C8 at concrete credentials. -/
theorem c8_credential_precedence_witness :
    validate_credentials (some "A") (some "B") (some "X") (some "Y") = .ok ("A", "B") ∧
    validate_credentials (some "A") none (some "X") (some "Y") = .ok ("A", "Y") ∧
    (∀ rid key envR envK : Option String,
      validate_credentials rid key envR envK = .error missingCredsMsg ↔
        (truthy rid = false ∧ truthy envR = false) ∨
        (truthy key = false ∧ truthy envK = false)) :=
  c8_credential_precedence "A" "B" "X" "Y" (by decide) (by decide) (by decide)

/-- Claim C9: an explicit credential equal to the empty string is
treated as absent — resolution behaves exactly as when that argument is
omitted, and when the corresponding environment default is unset or
empty as well, resolution fails with the missing-credentials error
instead of passing the empty string through. -/
theorem c9_empty_explicit_is_absent (rid key envR envK : Option String) :
    validate_credentials (some "") key envR envK = validate_credentials none key envR envK ∧
    validate_credentials rid (some "") envR envK = validate_credentials rid none envR envK ∧
    validate_credentials (some "") key none envK = .error missingCredsMsg ∧
    validate_credentials (some "") key (some "") envK = .error missingCredsMsg := by
  refine ⟨rfl, rfl, ?_, ?_⟩
  · simp [validate_credentials, pyOr, truthy]
  · simp [validate_credentials, pyOr, truthy]

/- ## Claim theorems: request building (`add_auth`) -/

/-- Claim C2 counterexample: credentials resolve to `("R", "K")`, yet
`add_auth` with a caller-supplied `resellerID` keeps the caller's value
— `params` is spread last in `{"resellerID": ..., "apiKey": ...,
**params}`, so caller-supplied values win, not credential values. -/
theorem c2_counterexample :
    validate_credentials (some "R") (some "K") none none = .ok ("R", "K") ∧
    add_auth [("resellerID", Val.vstr "EVIL")] (some "R") (some "K") none none =
      .ok [("resellerID", Val.vstr "EVIL"), ("apiKey", Val.vstr "K")] ∧
    dget [("resellerID", Val.vstr "EVIL"), ("apiKey", Val.vstr "K")] "resellerID" ≠
      some (Val.vstr "R") := by decide

/-- Claim C2 as amended: in the merged parameters the two reserved keys
carry the caller-supplied values whenever the caller supplied them, and
the resolved credential values only when the caller did not. -/
theorem c2_caller_values_win (params : PyDict) (rid key envR envK : Option String)
    (fr fk : String)
    (hok : validate_credentials rid key envR envK = .ok (fr, fk))
    (hnd : (keys params).Nodup) :
    ∃ d, add_auth params rid key envR envK = .ok d ∧
      (∀ v, dget params "resellerID" = some v → dget d "resellerID" = some v) ∧
      (dget params "resellerID" = none → dget d "resellerID" = some (Val.vstr fr)) ∧
      (∀ v, dget params "apiKey" = some v → dget d "apiKey" = some v) ∧
      (dget params "apiKey" = none → dget d "apiKey" = some (Val.vstr fk)) := by
  refine ⟨dmerge [("resellerID", Val.vstr fr), ("apiKey", Val.vstr fk)] params, ?_, ?_, ?_, ?_, ?_⟩
  · unfold add_auth
    rw [hok]
  · intro v hv
    exact dget_dmerge_of_some _ _ _ _ hnd hv
  · intro hv
    rw [dget_dmerge_of_none _ _ _ hv]
    simp [dget]
  · intro v hv
    exact dget_dmerge_of_some _ _ _ _ hnd hv
  · intro hv
    rw [dget_dmerge_of_none _ _ _ hv]
    simp [dget]

/-- Witness for the amended C2 at a concrete colliding call. -/
theorem c2_caller_values_win_witness :
    ∃ d, add_auth [("resellerID", Val.vstr "EVIL")] (some "R") (some "K") none none = .ok d ∧
      (∀ v, dget [("resellerID", Val.vstr "EVIL")] "resellerID" = some v →
        dget d "resellerID" = some v) ∧
      (dget [("resellerID", Val.vstr "EVIL")] "resellerID" = none →
        dget d "resellerID" = some (Val.vstr "R")) ∧
      (∀ v, dget [("resellerID", Val.vstr "EVIL")] "apiKey" = some v →
        dget d "apiKey" = some v) ∧
      (dget [("resellerID", Val.vstr "EVIL")] "apiKey" = none →
        dget d "apiKey" = some (Val.vstr "K")) :=
  c2_caller_values_win [("resellerID", Val.vstr "EVIL")] (some "R") (some "K") none none
    "R" "K" (by decide) (by decide)

/- ## Response-normalization lemmas -/

theorem retag_of_err (m : PyDict) (s : String)
    (hs : dget m "status" = some (Val.vstr s))
    (hpre : strStartsWith s "ERR_" = true) :
    retagStatus m =
      dmerge [("error", (dget m "errorMessage").getD (Val.vstr unknownErrMsg)),
              ("status", Val.vstr s)] m := by
  unfold retagStatus
  rw [hs]
  simp [hpre]

theorem retag_of_no_status (m : PyDict) (hs : dget m "status" = none) :
    retagStatus m = m := by
  unfold retagStatus
  rw [hs]

theorem retag_of_int_status (m : PyDict) (n : Int) (hs : dget m "status" = some (Val.vint n)) :
    retagStatus m = m := by
  unfold retagStatus
  rw [hs]

theorem retag_of_not_err (m : PyDict) (s : String)
    (hs : dget m "status" = some (Val.vstr s))
    (hpre : strStartsWith s "ERR_" = false) :
    retagStatus m = m := by
  unfold retagStatus
  rw [hs]
  simp [hpre]

/- ## Claim theorems: response normalization -/

/-- Claim C5: the status-convention re-tag preserves all original
fields — `{status: "ERR_X", errorMessage: "msg", other: 1}` normalizes
to the mapping `{status: "ERR_X", errorMessage: "msg", other: 1,
error: "msg"}` (the same mapping up to Python dict insertion order,
hence stated as a permutation of the duplicate-free association
lists), and `{status: "ERR_X"}` without an `errorMessage` normalizes
to include `error: "Unknown error occurred"`. -/
theorem c5_status_convention :
    (handle_soap_response (Resp.rdict
        [("status", Val.vstr "ERR_X"), ("errorMessage", Val.vstr "msg"),
         ("other", Val.vint 1)])).Perm
      [("status", Val.vstr "ERR_X"), ("errorMessage", Val.vstr "msg"), ("other", Val.vint 1),
       ("error", Val.vstr "msg")] ∧
    dget (handle_soap_response (Resp.rdict [("status", Val.vstr "ERR_X")])) "error" =
      some (Val.vstr unknownErrMsg) ∧
    handle_soap_response (Resp.rdict [("status", Val.vstr "ERR_X")]) =
      [("error", Val.vstr unknownErrMsg), ("status", Val.vstr "ERR_X")] := by decide

/-- Claim C10: when the raw mapping already carries an `error` field
next to an `ERR_`-prefixed status, the original `error` value survives
normalization — the original fields are spread over the synthetic ones
in `{"error": ..., "status": ..., **result}`. -/
theorem c10_original_error_wins (m : PyDict) (s : String) (v : Val)
    (hnd : (keys m).Nodup)
    (hs : dget m "status" = some (Val.vstr s))
    (hpre : strStartsWith s "ERR_" = true)
    (hv : dget m "error" = some v) :
    dget (handle_soap_response (Resp.rdict m)) "error" = some v := by
  show dget (retagStatus m) "error" = some v
  rw [retag_of_err m s hs hpre]
  exact dget_dmerge_of_some _ _ _ _ hnd hv

/-- Witness for C10: an original `error: "orig"` survives next to the
synthetic message derived from `errorMessage`. -/
theorem c10_original_error_wins_witness :
    dget (handle_soap_response (Resp.rdict
        [("status", Val.vstr "ERR_X"), ("errorMessage", Val.vstr "msg"),
         ("error", Val.vstr "orig")])) "error" = some (Val.vstr "orig") :=
  c10_original_error_wins
    [("status", Val.vstr "ERR_X"), ("errorMessage", Val.vstr "msg"), ("error", Val.vstr "orig")]
    "ERR_X" (Val.vstr "orig") (by decide) (by decide) (by decide) (by decide)

/-- Claim C7: normalization is idempotent on already-plain mappings —
for every duplicate-free mapping `m`, re-normalizing the normalized
result yields the same mapping (key-wise equality of lookups, which is
Python dict equality). -/
theorem c7_normalize_idempotent (m : PyDict) (hnd : (keys m).Nodup) (k : String) :
    dget (handle_soap_response (Resp.rdict (handle_soap_response (Resp.rdict m)))) k =
      dget (handle_soap_response (Resp.rdict m)) k := by
  show dget (retagStatus (retagStatus m)) k = dget (retagStatus m) k
  rcases hcase : dget m "status" with _ | v
  · simp only [retag_of_no_status m hcase]
  · cases v with
    | vint n => simp only [retag_of_int_status m n hcase]
    | vstr s =>
      by_cases hpre : strStartsWith s "ERR_" = true
      · rw [retag_of_err m s hcase hpre]
        set em := (dget m "errorMessage").getD (Val.vstr unknownErrMsg) with hem
        set r := dmerge [("error", em), ("status", Val.vstr s)] m with hr
        have hndr : (keys r).Nodup := by
          rw [hr]
          exact nodup_keys_dmerge _ _ (by simp [keys])
        have hrs : dget r "status" = some (Val.vstr s) := by
          rw [hr]
          exact dget_dmerge_of_some _ _ _ _ hnd hcase
        have hre : ∃ e0, dget r "error" = some e0 := by
          rcases he : dget m "error" with _ | w
          · refine ⟨em, ?_⟩
            rw [hr, dget_dmerge_of_none _ _ _ he]
            simp [dget]
          · exact ⟨w, by rw [hr]; exact dget_dmerge_of_some _ _ _ _ hnd he⟩
        have hrem : dget r "errorMessage" = dget m "errorMessage" := by
          rcases he : dget m "errorMessage" with _ | w
          · rw [hr, dget_dmerge_of_none _ _ _ he]
            simp [dget]
          · rw [hr]
            exact dget_dmerge_of_some _ _ _ _ hnd he
        rw [retag_of_err r s hrs hpre, hrem, ← hem]
        rcases hk : dget r k with _ | w
        · rw [dget_dmerge_of_none _ _ _ hk]
          obtain ⟨e0, he0⟩ := hre
          have hkerr : ¬("error" = k) := by
            intro hc
            subst hc
            rw [hk] at he0
            exact Option.noConfusion he0
          have hkst : ¬("status" = k) := by
            intro hc
            subst hc
            rw [hk] at hrs
            exact Option.noConfusion hrs
          rw [dget_cons, if_neg hkerr, dget_cons, if_neg hkst]
          rfl
        · exact dget_dmerge_of_some _ _ _ _ hndr hk
      · simp only [retag_of_not_err m s hcase (by simpa using hpre)]

/-- Witness for C7 on a concrete error-status mapping. -/
theorem c7_normalize_idempotent_witness :
    dget (handle_soap_response (Resp.rdict (handle_soap_response (Resp.rdict
        [("status", Val.vstr "ERR_X"), ("other", Val.vint 1)])))) "error" =
      dget (handle_soap_response (Resp.rdict
        [("status", Val.vstr "ERR_X"), ("other", Val.vint 1)])) "error" :=
  c7_normalize_idempotent [("status", Val.vstr "ERR_X"), ("other", Val.vint 1)]
    (by decide) "error"

/- ## Error-envelope lemmas -/

theorem dget_faultEnvelope_error (methodName m : String) (code detail : Option String) :
    dget (faultEnvelope methodName m code detail) "error" =
      some (Val.vstr ("SOAP Fault: " ++ m)) := by
  unfold faultEnvelope
  cases code with
  | none =>
    cases detail with
    | none => simp [dget]
    | some d =>
      rw [dget_dinsert_ne _ _ _ _ (by decide)]
      simp [dget]
  | some c =>
    cases detail with
    | none =>
      rw [dget_dinsert_ne _ _ _ _ (by decide)]
      simp [dget]
    | some d =>
      rw [dget_dinsert_ne _ _ _ _ (by decide), dget_dinsert_ne _ _ _ _ (by decide)]
      simp [dget]

theorem dget_faultEnvelope_method (methodName m : String) (code detail : Option String) :
    dget (faultEnvelope methodName m code detail) "method" =
      some (Val.vstr methodName) := by
  unfold faultEnvelope
  cases code with
  | none =>
    cases detail with
    | none => simp [dget]
    | some d =>
      rw [dget_dinsert_ne _ _ _ _ (by decide)]
      simp [dget]
  | some c =>
    cases detail with
    | none =>
      rw [dget_dinsert_ne _ _ _ _ (by decide)]
      simp [dget]
    | some d =>
      rw [dget_dinsert_ne _ _ _ _ (by decide), dget_dinsert_ne _ _ _ _ (by decide)]
      simp [dget]

theorem classify_has_error_and_method (methodName : String) (e : PyExn) :
    (∃ v, dget (classify methodName e) "error" = some v) ∧
    dget (classify methodName e) "method" = some (Val.vstr methodName) := by
  cases e with
  | transportError m =>
    exact ⟨⟨Val.vstr ("Transport error: " ++ m), by simp [classify, transportEnvelope, dget]⟩,
           by simp [classify, transportEnvelope, dget]⟩
  | fault m code detail =>
    exact ⟨⟨Val.vstr ("SOAP Fault: " ++ m), dget_faultEnvelope_error methodName m code detail⟩,
           dget_faultEnvelope_method methodName m code detail⟩
  | valueError m =>
    exact ⟨⟨Val.vstr m, by simp [classify, genericEnvelope, dget, PyExn.msg]⟩,
           by simp [classify, genericEnvelope, dget]⟩
  | otherExn ty m =>
    exact ⟨⟨Val.vstr m, by simp [classify, genericEnvelope, dget, PyExn.msg]⟩,
           by simp [classify, genericEnvelope, dget]⟩

theorem attemptCall_of_all_raise (w : World) (authParams : PyDict) (typedOk : Bool)
    (net : Nat → PyDict → CallOutcome) (h : ∀ n p, (net n p).isRaise = true) :
    ∃ w2 e, attemptCall w authParams typedOk net = (w2, .error e) := by
  unfold attemptCall doInvoke
  rcases hn0 : net w.callCount authParams with r | e0
  · have := h w.callCount authParams
    rw [hn0] at this
    simp [CallOutcome.isRaise] at this
  · rcases hn1 : net (w.callCount + 1) authParams with r | e1
    · have := h (w.callCount + 1) authParams
      rw [hn1] at this
      simp [CallOutcome.isRaise] at this
    · cases typedOk with
      | true =>
        refine ⟨{ w with callCount := w.callCount + 1 + 1 }, e1, ?_⟩
        simp [hn0, hn1]
      | false =>
        refine ⟨{ w with callCount := w.callCount + 1 }, e0, ?_⟩
        simp [hn0]

/- ## Claim theorems: the orchestrator -/

/-- Claim C1 counterexample: with no explicit credentials, no
environment defaults, and a fresh process, `safe_soap_call` performs
one descriptor fetch (network activity) before credentials are even
looked at, and the missing-credentials `ValueError` does not propagate:
it is caught by the final `except Exception` and returned as an error
mapping. -/
theorem c1_counterexample :
    (safe_soap_call freshWorld "balanceQuery" [] none none none none true true
        (fun _ _ => CallOutcome.ok (Resp.rdict []))).1.fetchCount = 1 ∧
    (safe_soap_call freshWorld "balanceQuery" [] none none none none true true
        (fun _ _ => CallOutcome.ok (Resp.rdict []))).2 =
      [("error", Val.vstr missingCredsMsg), ("method", Val.vstr "balanceQuery"),
       ("error_type", Val.vstr "ValueError")] := by decide

/-- Claim C1 as amended: when credentials cannot be resolved,
`safe_soap_call` does not raise — it returns the generic error envelope
(with `error`, `method`, and `error_type: "ValueError"`) — no remote
operation is invoked, and the descriptor fetch is still attempted
first: on a process whose client is uninitialized, exactly one fetch
happens before the credential check. -/
theorem c1_missing_credentials_absorbed (w : World) (methodName : String) (params : PyDict)
    (rid key envR envK : Option String) (typedOk : Bool) (net : Nat → PyDict → CallOutcome)
    (hmiss : validate_credentials rid key envR envK = .error missingCredsMsg) :
    (safe_soap_call w methodName params rid key envR envK true typedOk net).2 =
      [("error", Val.vstr missingCredsMsg), ("method", Val.vstr methodName),
       ("error_type", Val.vstr "ValueError")] ∧
    (safe_soap_call w methodName params rid key envR envK true typedOk net).1.callCount =
      w.callCount ∧
    (safe_soap_call w methodName params rid key envR envK true typedOk net).1.fetchCount =
      (if w.clientInit then w.fetchCount else w.fetchCount + 1) := by
  unfold safe_soap_call add_auth
  rw [hmiss]
  by_cases hc : w.clientInit
  · simp [get_soap_client, hc, classify, genericEnvelope, PyExn.msg, PyExn.typeName]
  · simp [get_soap_client, hc, classify, genericEnvelope, PyExn.msg, PyExn.typeName]

/-- Witness for the amended C1 at a concrete unresolved-credentials
call on a fresh process. -/
theorem c1_missing_credentials_absorbed_witness :
    (safe_soap_call freshWorld "balanceQuery" [] none none none none true true
        (fun _ _ => CallOutcome.ok (Resp.rdict []))).2 =
      [("error", Val.vstr missingCredsMsg), ("method", Val.vstr "balanceQuery"),
       ("error_type", Val.vstr "ValueError")] ∧
    (safe_soap_call freshWorld "balanceQuery" [] none none none none true true
        (fun _ _ => CallOutcome.ok (Resp.rdict []))).1.callCount = freshWorld.callCount ∧
    (safe_soap_call freshWorld "balanceQuery" [] none none none none true true
        (fun _ _ => CallOutcome.ok (Resp.rdict []))).1.fetchCount =
      (if freshWorld.clientInit then freshWorld.fetchCount else freshWorld.fetchCount + 1) :=
  c1_missing_credentials_absorbed freshWorld "balanceQuery" [] none none none none true
    (fun _ _ => CallOutcome.ok (Resp.rdict [])) (by decide)

/-- Claim C3: whatever exceptions the remote invocations raise — any
of the transport, fault, or unexpected kinds — `safe_soap_call`
returns a mapping carrying at least `error` and `method`; no
exception of these kinds escapes (in this embedding `safe_soap_call`
is total: its result type is a mapping, never a raised exception). -/
theorem c3_invoke_absorbs_call_errors (w : World) (methodName : String) (params : PyDict)
    (rid key envR envK : Option String) (fetchOk typedOk : Bool)
    (net : Nat → PyDict → CallOutcome)
    (hraise : ∀ n p, (net n p).isRaise = true) :
    (∃ v, dget (safe_soap_call w methodName params rid key envR envK fetchOk typedOk net).2
        "error" = some v) ∧
    dget (safe_soap_call w methodName params rid key envR envK fetchOk typedOk net).2
        "method" = some (Val.vstr methodName) := by
  unfold safe_soap_call
  rcases hgc : get_soap_client w fetchOk with ⟨w1, rg⟩
  cases rg with
  | error e => exact classify_has_error_and_method methodName e
  | ok u =>
    rcases ha : add_auth params rid key envR envK with m | authParams
    · exact classify_has_error_and_method methodName (PyExn.valueError m)
    · obtain ⟨w2, e, hat⟩ := attemptCall_of_all_raise w1 authParams typedOk net hraise
      simp only [hat]
      exact classify_has_error_and_method methodName e

/-- Witness for C3 with a transport failure on every invocation. -/
theorem c3_invoke_absorbs_call_errors_witness :
    (∃ v, dget (safe_soap_call freshWorld "checkDomain" [("domainName", Val.vstr "bad")]
        (some "R") (some "K") none none true true
        (fun _ _ => CallOutcome.raise (PyExn.transportError "connection refused"))).2
        "error" = some v) ∧
    dget (safe_soap_call freshWorld "checkDomain" [("domainName", Val.vstr "bad")]
        (some "R") (some "K") none none true true
        (fun _ _ => CallOutcome.raise (PyExn.transportError "connection refused"))).2
        "method" = some (Val.vstr "checkDomain") :=
  c3_invoke_absorbs_call_errors freshWorld "checkDomain" [("domainName", Val.vstr "bad")]
    (some "R") (some "K") none none true true
    (fun _ _ => CallOutcome.raise (PyExn.transportError "connection refused"))
    (fun _ _ => rfl)

/-- Claim C4 failing input: typed-request construction succeeds, the
first remote invocation raises a `Fault`, and the inner `except`
nevertheless fires — the remote operation is invoked a second time via
the untyped direct call (two invocations in one `safe_soap_call`), and
the round-trip failure is retried instead of being classified into an
error envelope. -/
theorem c4_remote_call_retried :
    (safe_soap_call freshWorld "balanceQuery" [] (some "R") (some "K") none none true true
        (fun n _ => if n = 0 then CallOutcome.raise (PyExn.fault "transient fault" none none)
                    else CallOutcome.ok (Resp.rdict [("status", Val.vstr "OK")]))).1.callCount
      = 2 ∧
    (safe_soap_call freshWorld "balanceQuery" [] (some "R") (some "K") none none true true
        (fun n _ => if n = 0 then CallOutcome.raise (PyExn.fault "transient fault" none none)
                    else CallOutcome.ok (Resp.rdict [("status", Val.vstr "OK")]))).2
      = [("status", Val.vstr "OK")] := by decide

/- ## Claim theorems: connection bootstrap -/

theorem iterateClient_of_init (n : Nat) (w : World) (h : w.clientInit = true) :
    iterateClient n w = w := by
  induction n with
  | zero => rfl
  | succ n ih =>
    show iterateClient n (get_soap_client w true).1 = w
    rw [show get_soap_client w true = (w, .ok ()) from by simp [get_soap_client, h]]
    exact ih

/-- Claim C6 counterexample: two callers racing through the unguarded
`if self._soap_client is None` both observe `None` and both fetch the
descriptor — after the interleaving `[0, 1, 0, 1]` both threads have
finished and two descriptor fetches occurred, not one. -/
theorem c6_counterexample_race :
    (runSched [0, 1, 0, 1] ⟨false, 0⟩ [TPos.start, TPos.start]).1.fetchCount = 2 ∧
    (runSched [0, 1, 0, 1] ⟨false, 0⟩ [TPos.start, TPos.start]).2 =
      [TPos.finished, TPos.finished] := by decide

/-- Claim C6 as amended: without concurrency the bootstrap is
init-once — any number of sequential `get_soap_client` calls on a
fresh process performs exactly one descriptor fetch and leaves the
shared client initialized (later calls reuse it), and the sequential
two-thread schedule `[0, 0, 1, 1]` also fetches exactly once; but the
check is not lock-guarded, so racing first callers may fetch more than
once (see the counterexample). -/
theorem c6_sequential_single_fetch (n : Nat) :
    (iterateClient (n + 1) freshWorld).fetchCount = 1 ∧
    (iterateClient (n + 1) freshWorld).clientInit = true ∧
    (runSched [0, 0, 1, 1] ⟨false, 0⟩ [TPos.start, TPos.start]).1.fetchCount = 1 := by
  have h1 : iterateClient (n + 1) freshWorld =
      ⟨true, 1, 0⟩ := by
    show iterateClient n (get_soap_client freshWorld true).1 = _
    rw [show (get_soap_client freshWorld true).1 = ⟨true, 1, 0⟩ from by
      simp [get_soap_client, freshWorld]]
    exact iterateClient_of_init n _ rfl
  refine ⟨by rw [h1], by rw [h1], by decide⟩

end SynergyWholesale
